import Mathlib

/-!
Verification development for the metrics collection, alerting and storage
subsystem of the PMOVES-BoTZ repository.

Shallow embedding conventions:
* Python `float` values are modelled as `ℚ` (exact rational arithmetic; the
  claims under study are order/equality facts that do not depend on binary
  rounding).  Python `int` is `ℕ` for counters that are only ever incremented
  from zero, and `ℤ` where the source subtracts.
* Python `datetime` timestamps on the storage side are modelled as `ℕ`
  seconds; the partition date (directory name `YYYYMMDD`) of a timestamp `t`
  is `t / 86400`.  Within one day the file name `metrics_HHMMSS.json` is a
  fixed-width zero-padded rendering of the time, so lexicographic file-name
  order coincides with numeric timestamp order; files are therefore modelled
  by their timestamps.
* `dict` is an association list preserving insertion order, as CPython does.
* `deque(maxlen=n)` is a list where appending beyond `n` drops the oldest
  entries (`dequeAppend`).
* Fallible Python operations are modelled with `Except`; an exception caught
  by a `try/except` handler yields the handler's result.
* Percentile ranks `int(n * 0.5)`, `int(n * 0.95)`, `int(n * 0.99)` are
  modelled as the exact floors `n * 50 / 100`, `n * 95 / 100`, `n * 99 / 100`
  (the spec's nearest-rank definition; the double-precision products in the
  source round to the same integers for every feasible buffer size).

Source files embedded: `src/features/metrics/collector.py`,
`src/features/metrics/alerts.py`, `src/features/metrics/storage.py`,
`src/pmoves_multi_agent_pro_pack/metrics/types.py`.
-/

/-- Bounded-buffer append: `collections.deque(maxlen := cap)` keeps the last
`cap` appended elements, evicting the oldest. -/
def dequeAppend (cap : ℕ) (l : List ℚ) (x : ℚ) : List ℚ :=
  let l' := l ++ [x]
  if cap < l'.length then l'.drop (l'.length - cap) else l'

/-- Python `max(l)` on a non-empty list (the sources only call it on
non-empty buffers; the `[]` case is an unused total-function default). -/
def listMax : List ℚ → ℚ
  | [] => 0
  | x :: xs => xs.foldl max x

/-- Python `min(l)` on a non-empty list. -/
def listMin : List ℚ → ℚ
  | [] => 0
  | x :: xs => xs.foldl min x

/-- Ordered-dict write `d[k] = v` (upsert preserving insertion order). -/
def dict_set (k : String) (v : ℚ) : List (String × ℚ) → List (String × ℚ)
  | [] => [(k, v)]
  | p :: rest => if p.1 = k then (k, v) :: rest else p :: dict_set k v rest

/-- Ordered-dict delete `del d[k]` (keys are unique, so removing the first
occurrence is exact). -/
def dict_erase (k : String) : List (String × ℚ) → List (String × ℚ)
  | [] => []
  | p :: rest => if p.1 = k then rest else p :: dict_erase k rest

/-- `defaultdict(int)` increment `d[k] += 1`. -/
def dict_incr (k : String) : List (String × ℕ) → List (String × ℕ)
  | [] => [(k, 1)]
  | p :: rest => if p.1 = k then (p.1, p.2 + 1) :: rest else p :: dict_incr k rest

/-- `defaultdict(lambda: deque(maxlen := cap))` append `d[k].append(v)`. -/
def dict_append_time (cap : ℕ) (k : String) (v : ℚ) :
    List (String × List ℚ) → List (String × List ℚ)
  | [] => [(k, dequeAppend cap [] v)]
  | p :: rest =>
    if p.1 = k then (p.1, dequeAppend cap p.2 v) :: rest
    else p :: dict_append_time cap k v rest

/-- `sum(d.values())` over a counter dict. -/
def dict_total (d : List (String × ℕ)) : ℕ := (d.map Prod.snd).sum

/-! ## Snapshot model (`types.py`) -/

/-- `MetricType` enum from `types.py`. -/
inductive MetricType where
  | counter | gauge | histogram | summary
deriving DecidableEq

/-- `AlertSeverity` enum from `types.py`. -/
inductive AlertSeverity where
  | info | warning | critical | emergency
deriving DecidableEq

/-- `MetricValue` dataclass from `types.py`. -/
structure MetricValue where
  name : String
  value : ℚ
  metric_type : MetricType
  timestamp : ℚ
  labels : List (String × String) := []
  unit : String := ""
  description : String := ""
deriving DecidableEq

/-- `ConnectionMetrics` dataclass from `types.py`, with its field defaults. -/
structure ConnectionMetrics where
  active_connections : ℕ := 0
  total_connections : ℕ := 0
  connection_duration_avg : ℚ := 0
  connection_duration_max : ℚ := 0
  connection_duration_min : ℚ := 0
  connection_errors : ℕ := 0
  connection_success_rate : ℚ := 100
  connection_queue_size : ℕ := 0
  rejected_connections : ℕ := 0
deriving DecidableEq

/-- `RequestMetrics` dataclass from `types.py`, with its field defaults. -/
structure RequestMetrics where
  request_count : ℕ := 0
  request_rate : ℚ := 0
  response_time_avg : ℚ := 0
  response_time_p50 : ℚ := 0
  response_time_p95 : ℚ := 0
  response_time_p99 : ℚ := 0
  response_time_max : ℚ := 0
  response_time_min : ℚ := 0
  success_rate : ℚ := 100
  error_rate : ℚ := 0
  timeout_rate : ℚ := 0
  throughput : ℚ := 0
deriving DecidableEq

/-- `ResourceMetrics` dataclass from `types.py`. -/
structure ResourceMetrics where
  cpu_usage_percent : ℚ := 0
  memory_usage_bytes : ℕ := 0
  memory_usage_percent : ℚ := 0
  disk_usage_bytes : ℕ := 0
  disk_usage_percent : ℚ := 0
  network_in_bytes : ℕ := 0
  network_out_bytes : ℕ := 0
  network_in_rate : ℚ := 0
  network_out_rate : ℚ := 0
  open_file_descriptors : ℕ := 0
  thread_count : ℕ := 0
  process_count : ℕ := 0
deriving DecidableEq

/-- `SSEMetrics` dataclass from `types.py`. -/
structure SSEMetrics where
  events_sent : ℕ := 0
  events_received : ℕ := 0
  event_queue_size : ℕ := 0
  event_processing_time_avg : ℚ := 0
  event_processing_time_max : ℚ := 0
  event_processing_time_min : ℚ := 0
  stream_latency_avg : ℚ := 0
  stream_latency_max : ℚ := 0
  stream_errors : ℕ := 0
  keepalive_sent : ℕ := 0
  client_disconnects : ℕ := 0
deriving DecidableEq

/-- `ToolMetrics` dataclass from `types.py`.  The aggregate call counters are
`ℤ` because `get_tool_metrics` computes `tool_calls_success` by
subtraction. -/
structure ToolMetrics where
  tool_calls_total : ℤ := 0
  tool_calls_success : ℤ := 0
  tool_calls_error : ℤ := 0
  tool_calls_timeout : ℤ := 0
  tool_execution_time_avg : ℚ := 0
  tool_execution_time_p50 : ℚ := 0
  tool_execution_time_p95 : ℚ := 0
  tool_execution_time_p99 : ℚ := 0
  tool_execution_time_max : ℚ := 0
  tool_execution_time_min : ℚ := 0
  tool_calls_by_name : List (String × ℕ) := []
  tool_errors_by_name : List (String × ℕ) := []
  tool_timeout_by_name : List (String × ℕ) := []
deriving DecidableEq

/-- `SystemMetrics` dataclass from `types.py`. -/
structure SystemMetrics where
  uptime_seconds : ℚ := 0
  start_time : Option ℚ := none
  health_check_status : String := "healthy"
  health_check_failures : ℕ := 0
  last_health_check : Option ℚ := none
  service_status : String := "running"
  restart_count : ℕ := 0
  error_count_total : ℕ := 0
  warning_count_total : ℕ := 0
deriving DecidableEq

/-- `MetricsSnapshot` dataclass from `types.py`. -/
structure MetricsSnapshot where
  timestamp : ℚ
  connection_metrics : ConnectionMetrics
  request_metrics : RequestMetrics
  resource_metrics : ResourceMetrics
  sse_metrics : SSEMetrics
  tool_metrics : ToolMetrics
  system_metrics : SystemMetrics
  custom_metrics : List (String × MetricValue) := []
deriving DecidableEq

/-- `PerformanceAlert` dataclass from `types.py`.  `alert_id` (a `uuid4`
string in the source) is modelled as a counter value: the only property the
source relies on is freshness. -/
structure PerformanceAlert where
  alert_id : ℕ
  severity : AlertSeverity
  metric_name : String
  current_value : ℚ
  threshold_value : ℚ
  message : String
  timestamp : ℕ
  labels : List (String × String) := []
  acknowledged : Bool := false
  resolved : Bool := false
  resolved_at : Option ℕ := none
deriving DecidableEq

/-! ## Collector (`collector.py`)

The mutable counters and buffers initialised in `MetricsCollector.__init__`.
The `psutil` process handle and the background-task/lock plumbing carry no
metric state and are not part of the embedding. -/

/-- Mutable state of `MetricsCollector`. -/
structure CollectorState where
  enabled : Bool := true
  start_time : ℚ := 0
  active_connections : List (String × ℚ) := []
  connection_durations : List ℚ := []
  connection_errors : ℕ := 0
  total_connections : ℕ := 0
  request_times : List ℚ := []
  request_count : ℕ := 0
  request_errors : ℕ := 0
  request_timeouts : ℕ := 0
  bytes_processed : ℕ := 0
  sse_events_sent : ℕ := 0
  sse_events_received : ℕ := 0
  sse_event_times : List ℚ := []
  sse_stream_latencies : List ℚ := []
  sse_errors : ℕ := 0
  keepalive_sent : ℕ := 0
  client_disconnects : ℕ := 0
  tool_calls : List (String × ℕ) := []
  tool_errors : List (String × ℕ) := []
  tool_timeouts : List (String × ℕ) := []
  tool_execution_times : List (String × List ℚ) := []
  health_check_failures : ℕ := 0
  total_errors : ℕ := 0
  total_warnings : ℕ := 0
deriving DecidableEq

/-- Freshly initialised collector (`MetricsCollector.__init__`). -/
def initialCollector : CollectorState := {}

/-- `MetricsCollector.record_connection_start`. -/
def record_connection_start (connection_id : String) (now : ℚ)
    (s : CollectorState) : CollectorState :=
  if !s.enabled then s
  else
    { s with
      active_connections := dict_set connection_id now s.active_connections
      total_connections := s.total_connections + 1 }

/-- `MetricsCollector.record_connection_end`: ending an id absent from the
active-connections map does nothing (the error counter is only reached
inside the membership guard). -/
def record_connection_end (connection_id : String) (error : Bool) (now : ℚ)
    (s : CollectorState) : CollectorState :=
  if !s.enabled then s
  else
    match s.active_connections.lookup connection_id with
    | none => s
    | some start =>
      { s with
        connection_durations := dequeAppend 1000 s.connection_durations (now - start)
        active_connections := dict_erase connection_id s.active_connections
        connection_errors := if error then s.connection_errors + 1 else s.connection_errors }

/-- `MetricsCollector.record_request_end` (`start_time` is the token returned
by `record_request_start`; `0.0` marks a token issued while disabled). -/
def record_request_end (start_time : ℚ) (success : Bool) (bytes_processed : ℕ)
    (timeout : Bool) (now : ℚ) (s : CollectorState) : CollectorState :=
  if !s.enabled || decide (start_time = 0) then s
  else
    let duration := now - start_time
    { s with
      request_times := dequeAppend 10000 s.request_times duration
      request_count := s.request_count + 1
      bytes_processed := s.bytes_processed + bytes_processed
      request_errors := if !success then s.request_errors + 1 else s.request_errors
      request_timeouts := if timeout then s.request_timeouts + 1 else s.request_timeouts }

/-- `MetricsCollector.record_tool_call`. -/
def record_tool_call (tool_name : String) (execution_time : ℚ) (success : Bool)
    (timeout : Bool) (s : CollectorState) : CollectorState :=
  if !s.enabled then s
  else
    { s with
      tool_calls := dict_incr tool_name s.tool_calls
      tool_execution_times := dict_append_time 1000 tool_name execution_time s.tool_execution_times
      tool_errors := if !success then dict_incr tool_name s.tool_errors else s.tool_errors
      tool_timeouts := if timeout then dict_incr tool_name s.tool_timeouts else s.tool_timeouts }

/-- `MetricsCollector.get_connection_metrics`. -/
def get_connection_metrics (s : CollectorState) : ConnectionMetrics :=
  let durations := s.connection_durations
  let avg_duration := if durations.isEmpty then 0 else durations.sum / (durations.length : ℚ)
  let max_duration := if durations.isEmpty then 0 else listMax durations
  let min_duration := if durations.isEmpty then 0 else listMin durations
  let total_connections := s.total_connections
  let error_rate :=
    if 0 < total_connections then (s.connection_errors : ℚ) / (total_connections : ℚ) * 100 else 0
  { active_connections := s.active_connections.length
    total_connections := total_connections
    connection_duration_avg := avg_duration
    connection_duration_max := max_duration
    connection_duration_min := min_duration
    connection_errors := s.connection_errors
    connection_success_rate := 100 - error_rate
    connection_queue_size := 0
    rejected_connections := 0 }

/-- `MetricsCollector.get_request_metrics`.  `now` is `time.time()` at the
moment of the call.  An empty buffer short-circuits to the dataclass
defaults.  Note that `self._request_times` holds request *durations*, and the
rate computation filters those same values against `now`. -/
def get_request_metrics (now : ℚ) (s : CollectorState) : RequestMetrics :=
  let times := s.request_times
  if times.isEmpty then {}
  else
    let times_sorted := times.insertionSort (· ≤ ·)
    let n := times_sorted.length
    let p50_idx := n * 50 / 100
    let p95_idx := n * 95 / 100
    let p99_idx := n * 99 / 100
    let recent_requests := (times.filter (fun t => decide (now - t < 60))).length
    let request_rate := (recent_requests : ℚ) / 60
    let throughput := (s.bytes_processed : ℚ) / (now - s.start_time)
    let total_requests := s.request_count
    let error_rate :=
      if 0 < total_requests then (s.request_errors : ℚ) / (total_requests : ℚ) * 100 else 0
    let timeout_rate :=
      if 0 < total_requests then (s.request_timeouts : ℚ) / (total_requests : ℚ) * 100 else 0
    { request_count := total_requests
      request_rate := request_rate
      response_time_avg := times.sum / (times.length : ℚ)
      response_time_p50 := if p50_idx < n then times_sorted.getD p50_idx 0 else 0
      response_time_p95 := if p95_idx < n then times_sorted.getD p95_idx 0 else 0
      response_time_p99 := if p99_idx < n then times_sorted.getD p99_idx 0 else 0
      response_time_max := listMax times
      response_time_min := listMin times
      success_rate := 100 - error_rate
      error_rate := error_rate
      timeout_rate := timeout_rate
      throughput := throughput }

/-- `MetricsCollector.get_sse_metrics`. -/
def get_sse_metrics (s : CollectorState) : SSEMetrics :=
  let event_times := s.sse_event_times
  let stream_latencies := s.sse_stream_latencies
  let event_avg := if event_times.isEmpty then 0 else event_times.sum / (event_times.length : ℚ)
  let event_max := if event_times.isEmpty then 0 else listMax event_times
  let event_min := if event_times.isEmpty then 0 else listMin event_times
  let latency_avg :=
    if stream_latencies.isEmpty then 0 else stream_latencies.sum / (stream_latencies.length : ℚ)
  let latency_max := if stream_latencies.isEmpty then 0 else listMax stream_latencies
  { events_sent := s.sse_events_sent
    events_received := s.sse_events_received
    event_queue_size := 0
    event_processing_time_avg := event_avg
    event_processing_time_max := event_max
    event_processing_time_min := event_min
    stream_latency_avg := latency_avg
    stream_latency_max := latency_max
    stream_errors := s.sse_errors
    keepalive_sent := s.keepalive_sent
    client_disconnects := s.client_disconnects }

/-- `MetricsCollector.get_tool_metrics`. -/
def get_tool_metrics (s : CollectorState) : ToolMetrics :=
  let total_calls := dict_total s.tool_calls
  let total_errs := dict_total s.tool_errors
  let total_success := (total_calls : ℤ) - (total_errs : ℤ)
  let total_timeouts := dict_total s.tool_timeouts
  let all_execution_times := (s.tool_execution_times.map Prod.snd).flatten
  if all_execution_times.isEmpty then
    { tool_calls_total := total_calls
      tool_calls_success := total_success
      tool_calls_error := total_errs
      tool_calls_timeout := total_timeouts
      tool_execution_time_avg := 0
      tool_execution_time_p50 := 0
      tool_execution_time_p95 := 0
      tool_execution_time_p99 := 0
      tool_execution_time_max := 0
      tool_execution_time_min := 0
      tool_calls_by_name := s.tool_calls
      tool_errors_by_name := s.tool_errors
      tool_timeout_by_name := s.tool_timeouts }
  else
    let execution_times_sorted := all_execution_times.insertionSort (· ≤ ·)
    let n := execution_times_sorted.length
    let p50_idx := n * 50 / 100
    let p95_idx := n * 95 / 100
    let p99_idx := n * 99 / 100
    { tool_calls_total := total_calls
      tool_calls_success := total_success
      tool_calls_error := total_errs
      tool_calls_timeout := total_timeouts
      tool_execution_time_avg := all_execution_times.sum / (all_execution_times.length : ℚ)
      tool_execution_time_p50 := if p50_idx < n then execution_times_sorted.getD p50_idx 0 else 0
      tool_execution_time_p95 := if p95_idx < n then execution_times_sorted.getD p95_idx 0 else 0
      tool_execution_time_p99 := if p99_idx < n then execution_times_sorted.getD p99_idx 0 else 0
      tool_execution_time_max := listMax all_execution_times
      tool_execution_time_min := listMin all_execution_times
      tool_calls_by_name := s.tool_calls
      tool_errors_by_name := s.tool_errors
      tool_timeout_by_name := s.tool_timeouts }

/-! ## Store (`storage.py`)

The on-disk layout is one day-partitioned directory per date
(`YYYYMMDD/metrics_HHMMSS.json`, compressed files carry a further `.gz`
suffix).  A directory is a `StorageBucket`; files are identified by the
snapshot timestamp they encode (see the header comment). -/

/-- A day directory of persisted snapshots. `date` is the day index
(`timestamp / 86400`); `raw` and `gz` are the timestamps of the
`metrics_*.json` and `metrics_*.json.gz` files. -/
structure StorageBucket where
  date : ℕ
  raw : List ℕ
  gz : List ℕ
deriving DecidableEq

/-- Storage-relevant part of `MetricsConfig`. -/
structure StorageConfig where
  retention_hours : ℕ := 24
  compression_enabled : Bool := true
  compression_threshold : ℕ := 1000
deriving DecidableEq

/-- Exceptions relevant to the embedded storage code. -/
inductive PyError where
  | typeError | valueError
deriving DecidableEq

/-- CPython semantics of `dir_date < cutoff_date.date()` in
`MetricsStorage._cleanup_old_files`: `dir_date` is a `datetime.datetime`
(produced by `strptime`) and `cutoff_date.date()` is a `datetime.date`;
`datetime.__lt__` refuses mixed comparison and raises `TypeError`
(`_cmperror`), it never falls back to comparing the date parts. -/
def pyLtDatetimeDate (_dirDate _cutoffDay : ℕ) : Except PyError Bool :=
  .error .typeError

/-- Loop body of `MetricsStorage._cleanup_old_files` over the date
directories.  Each iteration parses the directory name (always a valid date
here: the store only ever creates date-named directories) and compares the
parsed `datetime` against `cutoff_date.date()`.  The inner handler catches
only `ValueError`, so the `TypeError` raised by the mixed comparison escapes
the loop at the first directory, leaving it and every remaining directory in
place; directories for which the comparison returned `true` would have been
removed wholesale (`shutil.rmtree`). -/
def cleanup_scan (cutoffDay : ℕ) : List StorageBucket → List StorageBucket
  | [] => []
  | b :: rest =>
    match pyLtDatetimeDate b.date cutoffDay with
    | .error _ => b :: rest
    | .ok true => cleanup_scan cutoffDay rest
    | .ok false => b :: cleanup_scan cutoffDay rest

/-- `MetricsStorage._cleanup_old_files`: the outer handler catches the
escaping exception, logs it and returns; whatever state the scan reached is
kept. -/
def cleanup_old_files (cutoffDay : ℕ) (fs : List StorageBucket) : List StorageBucket :=
  cleanup_scan cutoffDay fs

/-- `MetricsStorage._compress_file` applied to the batch selected by
`MetricsStorage._check_compression`: once the bucket holds at least
`compression_threshold` raw files, every raw file except the 10 last in
sorted file-name order (the 10 most recent) is rewritten as `.json.gz` and
the original deleted. Below the threshold the bucket is untouched. -/
def check_compression (threshold : ℕ) (b : StorageBucket) : StorageBucket :=
  if threshold ≤ b.raw.length then
    let sorted_files := b.raw.insertionSort (· ≤ ·)
    let files_to_compress := sorted_files.take (sorted_files.length - 10)
    { b with
      raw := sorted_files.drop (sorted_files.length - 10)
      gz := b.gz ++ files_to_compress }
  else b

/-- Create-or-append into the day directory of the snapshot
(`daily_dir.mkdir(exist_ok := True)` followed by the JSON write). -/
def write_raw_file (day ts : ℕ) : List StorageBucket → List StorageBucket
  | [] => [{ date := day, raw := [ts], gz := [] }]
  | b :: rest =>
    if b.date = day then { b with raw := b.raw ++ [ts] } :: rest
    else b :: write_raw_file day ts rest

/-- `MetricsStorage._store_file_snapshot`: write the snapshot into its day
bucket, run the compression check on that bucket when compression is
enabled, then run the retention cleanup (`now` is `datetime.now()` in
seconds; the cutoff day is `(now - retention_hours hours).date()`). -/
def store_file_snapshot (cfg : StorageConfig) (now ts : ℕ)
    (fs : List StorageBucket) : List StorageBucket :=
  let day := ts / 86400
  let fs1 := write_raw_file day ts fs
  let fs2 :=
    if cfg.compression_enabled then
      fs1.map (fun b => if b.date = day then check_compression cfg.compression_threshold b else b)
    else fs1
  cleanup_old_files ((now - cfg.retention_hours * 3600) / 86400) fs2

/-- `daily_dir` existence test inside `_get_file_snapshots`. -/
def find_bucket (fs : List StorageBucket) (day : ℕ) : Option StorageBucket :=
  fs.find? (fun b => decide (b.date = day))

/-- Day-directory loop of `MetricsStorage._get_file_snapshots`: for each day
in the range, load the uncompressed `metrics_*.json` files and then the
compressed `metrics_*.json.gz` files, keeping the snapshots for which
`_is_in_time_range` holds (`start_time ≤ timestamp ≤ end_time`). -/
def collect_days (start_time end_time : ℕ) (fs : List StorageBucket) :
    List ℕ → List ℕ
  | [] => []
  | d :: ds =>
    (match find_bucket fs d with
     | some b =>
       b.raw.filter (fun t => decide (start_time ≤ t ∧ t ≤ end_time)) ++
       b.gz.filter (fun t => decide (start_time ≤ t ∧ t ≤ end_time))
     | none => []) ++ collect_days start_time end_time fs ds

/-- `MetricsStorage._get_file_snapshots`: defaults the missing range bounds
(`now - retention_hours` and `now`), walks the day directories of the range,
sorts the collected snapshots by timestamp, and applies the limit truthily
(Python `if limit:`): a `none` or `0` limit returns everything, a nonzero
limit keeps the `limit` most recent entries of the sorted list. -/
def get_file_snapshots (cfg : StorageConfig) (now : ℕ)
    (start_time? end_time? : Option ℕ) (limit : Option ℕ)
    (fs : List StorageBucket) : List ℕ :=
  let start_time := start_time?.getD (now - cfg.retention_hours * 3600)
  let end_time := end_time?.getD now
  let start_day := start_time / 86400
  let end_day := end_time / 86400
  let snapshots := collect_days start_time end_time fs (List.range' start_day (end_day + 1 - start_day))
  let sorted_snaps := snapshots.insertionSort (· ≤ ·)
  match limit with
  | none => sorted_snaps
  | some n => if n ≠ 0 then sorted_snaps.drop (sorted_snaps.length - n) else sorted_snaps

/-! ## Alert engine (`alerts.py`) -/

/-- Mutable state of `AlertManager`.  `active` models the values of the
`_active_alerts` dict in insertion order; `history` holds the ids of the
`_alert_history` entries (the Python list aliases the live alert objects, so
only the identity is stored separately); `notified` is the log of alert ids
handed to `_notify_handlers`, one entry per fan-out; `next_id` models `uuid4`
freshness. -/
structure AlertState where
  active : List PerformanceAlert := []
  history : List ℕ := []
  notified : List ℕ := []
  next_id : ℕ := 0
deriving DecidableEq

/-- Freshly initialised alert manager (`AlertManager.__init__`). -/
def initialAlertState : AlertState := {}

/-- Predicate of `AlertManager._find_similar_alert`: same metric, same
severity, not resolved. -/
def is_similar_alert (metric_name : String) (severity : AlertSeverity)
    (a : PerformanceAlert) : Bool :=
  decide (a.metric_name = metric_name) && decide (a.severity = severity) && !a.resolved

/-- In-place update branch of `AlertManager._create_alert`: the first
matching unresolved alert (dict iteration order) gets its
`current_value`/`timestamp`/`message` overwritten. -/
def update_similar_alert (metric_name : String) (severity : AlertSeverity)
    (current_value : ℚ) (t : ℕ) (message : String) :
    List PerformanceAlert → List PerformanceAlert
  | [] => []
  | a :: rest =>
    if is_similar_alert metric_name severity a then
      { a with current_value := current_value, timestamp := t, message := message } :: rest
    else a :: update_similar_alert metric_name severity current_value t message rest

/-- History trim in `AlertManager._create_alert`: keep the most recent
`max_size` entries. -/
def trim_history (max_size : ℕ) (h : List ℕ) : List ℕ :=
  if max_size < h.length then h.drop (h.length - max_size) else h

/-- `AlertManager._create_alert`: if an unresolved alert with the same
`(metric_name, severity)` exists, update it in place (no handler fan-out);
otherwise append a fresh alert to the active dict and the history, and
notify the handlers exactly once for it. -/
def create_alert (severity : AlertSeverity) (metric_name : String)
    (current_value threshold_value : ℚ) (message : String) (t : ℕ)
    (s : AlertState) : AlertState :=
  match s.active.find? (is_similar_alert metric_name severity) with
  | some _ =>
    { s with active := update_similar_alert metric_name severity current_value t message s.active }
  | none =>
    let alert : PerformanceAlert :=
      { alert_id := s.next_id
        severity := severity
        metric_name := metric_name
        current_value := current_value
        threshold_value := threshold_value
        message := message
        timestamp := t }
    { s with
      active := s.active ++ [alert]
      history := trim_history 1000 (s.history ++ [alert.alert_id])
      notified := s.notified ++ [alert.alert_id]
      next_id := s.next_id + 1 }

/-- `AlertManager._get_metric_value`: map a monitored metric name to its
value in the snapshot (`response_time_p95` is converted to milliseconds,
`tool_timeout_rate` is derived); unknown names yield `none`. -/
def get_metric_value (metric_name : String) (snap : MetricsSnapshot) : Option ℚ :=
  if metric_name = "cpu_usage_percent" then some snap.resource_metrics.cpu_usage_percent
  else if metric_name = "memory_usage_percent" then some snap.resource_metrics.memory_usage_percent
  else if metric_name = "response_time_p95" then some (snap.request_metrics.response_time_p95 * 1000)
  else if metric_name = "error_rate" then some snap.request_metrics.error_rate
  else if metric_name = "connection_errors" then some (snap.connection_metrics.connection_errors : ℚ)
  else if metric_name = "tool_timeout_rate" then
    some (if 0 < snap.tool_metrics.tool_calls_total then
            (snap.tool_metrics.tool_calls_timeout : ℚ) / (snap.tool_metrics.tool_calls_total : ℚ) * 100
          else 0)
  else none

/-- `AlertManager._is_alert_resolved`: two-tier hysteresis.  `warn` models
`self.thresholds.get(metric_name, dict()).get(STR_warning, 0)`, the
configured warning threshold with default `0`. -/
def is_alert_resolved (warn : String → ℚ) (a : PerformanceAlert)
    (snap : MetricsSnapshot) : Bool :=
  match get_metric_value a.metric_name snap with
  | none => false
  | some current_value =>
    match a.severity with
    | .critical => decide (current_value < warn a.metric_name)
    | .warning => decide (current_value < warn a.metric_name * (4 / 5))
    | _ => false

/-- `AlertManager._auto_resolve_alerts`: every still-unresolved alert whose
condition has cleared is flagged resolved with a resolution time. -/
def auto_resolve_alerts (warn : String → ℚ) (snap : MetricsSnapshot) (t : ℕ)
    (s : AlertState) : AlertState :=
  { s with
    active := s.active.map (fun a =>
      if !a.resolved && is_alert_resolved warn a snap then
        { a with resolved := true, resolved_at := some t }
      else a) }

/-- `AlertManager.resolve_alert` (manual operator resolution by id). -/
def resolve_alert (alert_id t : ℕ) (s : AlertState) : AlertState :=
  { s with
    active := s.active.map (fun a =>
      if a.alert_id = alert_id then { a with resolved := true, resolved_at := some t }
      else a) }

/-- One observable step of the alert engine: a threshold breach reported by
one of the `_check_*` evaluators (which call `_create_alert`), the
auto-resolve pass of an evaluation tick, or a manual resolution. -/
inductive AlertEvent where
  | breach (severity : AlertSeverity) (metric_name : String)
      (current_value threshold_value : ℚ) (message : String) (t : ℕ)
  | autoResolve (snap : MetricsSnapshot) (t : ℕ)
  | manualResolve (alert_id t : ℕ)

/-- Interpreter for alert-engine events. -/
def alertStep (warn : String → ℚ) (s : AlertState) : AlertEvent → AlertState
  | .breach severity metric_name current_value threshold_value message t =>
    create_alert severity metric_name current_value threshold_value message t s
  | .autoResolve snap t => auto_resolve_alerts warn snap t s
  | .manualResolve alert_id t => resolve_alert alert_id t s

/-- A whole run of the alert engine from a fresh manager. -/
def runAlerts (warn : String → ℚ) (evs : List AlertEvent) : AlertState :=
  evs.foldl (alertStep warn) initialAlertState

/-- Default warning thresholds of `MetricsConfig.alert_thresholds`
(`types.py`), as consulted by `_is_alert_resolved`. -/
def default_warn_thresholds (metric_name : String) : ℚ :=
  if metric_name = "cpu_usage_percent" then 70
  else if metric_name = "memory_usage_percent" then 80
  else if metric_name = "response_time_p95" then 1000
  else if metric_name = "error_rate" then 5
  else if metric_name = "connection_errors" then 10
  else if metric_name = "tool_timeout_rate" then 2
  else 0

/-! ## Invariant of the alert state machine and concrete demonstration
inputs used by the witnesses -/

/-- Invariant maintained by the alert engine: alert ids are fresh and unique,
the handler fan-out log holds exactly one entry per created record (in
creation order), and at most one unresolved alert exists per
`(metric_name, severity)` key. -/
def AlertInv (s : AlertState) : Prop :=
  (∀ a ∈ s.active, a.alert_id < s.next_id) ∧
  s.notified = s.active.map (fun a => a.alert_id) ∧
  (∀ a ∈ s.active, ∀ b ∈ s.active,
    a.metric_name = b.metric_name → a.severity = b.severity →
    a.resolved = false → b.resolved = false → a.alert_id = b.alert_id)

/-- A collector that has completed one request of duration 3 (100 bytes). -/
def demoRequestState : CollectorState :=
  record_request_end 5 true 100 false 8 initialCollector

/-- A collector with two completed requests (durations 1 and 4) and two
calls of one tool (execution times 1 and 3). -/
def demoPercentileState : CollectorState :=
  record_tool_call "convert" 3 true false
    (record_tool_call "convert" 1 true false
      (record_request_end 5 true 0 false 9
        (record_request_end 5 true 0 false 6 initialCollector)))

/-- A day bucket holding 12 raw snapshot files. -/
def demoBucket : StorageBucket :=
  { date := 0, raw := [1, 2, 3, 4, 5, 6, 7, 8, 9, 10, 11, 12], gz := [] }

/-- A snapshot whose CPU usage sits at 50 percent (all else default). -/
def demoSnapshot : MetricsSnapshot :=
  { timestamp := 0
    connection_metrics := {}
    request_metrics := {}
    resource_metrics := { cpu_usage_percent := 50 }
    sse_metrics := {}
    tool_metrics := {}
    system_metrics := {} }

/-- An unresolved critical CPU alert. -/
def demoAlert : PerformanceAlert :=
  { alert_id := 0
    severity := .critical
    metric_name := "cpu_usage_percent"
    current_value := 90
    threshold_value := 85
    message := "CPU usage is critically high"
    timestamp := 0 }

/-- An alert-manager state holding the single unresolved [demoAlert]. -/
def demoAlertState : AlertState :=
  { active := [demoAlert], history := [0], notified := [0], next_id := 1 }

/-- Two consecutive warning breaches of the same metric, as produced by two
evaluation ticks with the value above the warning threshold. -/
def demoTrace : List AlertEvent :=
  [ .breach .warning "cpu_usage_percent" 75 70 "CPU usage is high" 1,
    .breach .warning "cpu_usage_percent" 80 70 "CPU usage is high" 2 ]

/-! ## Helper lemmas -/

lemma le_foldl_max (ys : List ℚ) (a : ℚ) : a ≤ ys.foldl max a := by
  induction ys generalizing a with
  | nil => exact le_refl a
  | cons y ys ih => exact le_trans (le_max_left a y) (ih (max a y))

lemma mem_le_foldl_max {x : ℚ} (ys : List ℚ) (a : ℚ) (hx : x ∈ ys) :
    x ≤ ys.foldl max a := by
  induction ys generalizing a with
  | nil => cases hx
  | cons y ys ih =>
    rcases List.mem_cons.mp hx with rfl | hmem
    · exact le_trans (le_max_right a x) (le_foldl_max ys (max a x))
    · exact ih (max a y) hmem

lemma le_listMax {l : List ℚ} {x : ℚ} (hx : x ∈ l) : x ≤ listMax l := by
  cases l with
  | nil => cases hx
  | cons y ys =>
    rcases List.mem_cons.mp hx with rfl | hmem
    · exact le_foldl_max ys x
    · exact mem_le_foldl_max ys y hmem

lemma sorted_getD_mono {l : List ℚ} (h : l.Sorted (· ≤ ·)) {i j : ℕ}
    (hij : i ≤ j) (hj : j < l.length) : l.getD i 0 ≤ l.getD j 0 := by
  have hi : i < l.length := lt_of_le_of_lt hij hj
  rw [List.getD_eq_getElem l 0 hi, List.getD_eq_getElem l 0 hj]
  have := h.rel_get_of_le (a := ⟨i, hi⟩) (b := ⟨j, hj⟩) hij
  simpa using this

lemma rank_idx_lt {n a : ℕ} (hn : 0 < n) (ha : a ≤ 99) : n * a / 100 < n := by
  have h1 : n * a ≤ n * 99 := Nat.mul_le_mul_left n ha
  have h2 : n * a / 100 ≤ n * 99 / 100 := Nat.div_le_div_right h1
  have h3 : n * 99 / 100 < n := by omega
  omega

lemma sorted_rank_chain (l : List ℚ) (hne : l ≠ []) {a b : ℕ}
    (hab : a ≤ b) (hb : b ≤ 99) :
    (l.insertionSort (· ≤ ·)).getD ((l.insertionSort (· ≤ ·)).length * a / 100) 0 ≤
      (l.insertionSort (· ≤ ·)).getD ((l.insertionSort (· ≤ ·)).length * b / 100) 0 := by
  have hs := List.sorted_insertionSort (· ≤ ·) l
  have hn : 0 < (l.insertionSort (· ≤ ·)).length := by
    rw [List.length_insertionSort]
    exact List.length_pos.mpr hne
  exact sorted_getD_mono hs
    (Nat.div_le_div_right (Nat.mul_le_mul_left _ hab)) (rank_idx_lt hn hb)

lemma sorted_rank_le_listMax (l : List ℚ) (hne : l ≠ []) {a : ℕ} (ha : a ≤ 99) :
    (l.insertionSort (· ≤ ·)).getD ((l.insertionSort (· ≤ ·)).length * a / 100) 0 ≤
      listMax l := by
  have hn : 0 < (l.insertionSort (· ≤ ·)).length := by
    rw [List.length_insertionSort]
    exact List.length_pos.mpr hne
  have hidx := rank_idx_lt hn ha
  rw [List.getD_eq_getElem _ 0 hidx]
  exact le_listMax ((List.mem_insertionSort (· ≤ ·)).mp (List.getElem_mem hidx))

lemma isEmpty_false_of_ne_nil {α : Type} {l : List α} (h : l ≠ []) :
    l.isEmpty = false := by
  cases l with
  | nil => exact absurd rfl h
  | cons x xs => rfl


/-! ## C9 -/

/-- C9: for every collector state and connection id absent from the
active-connections map, `record_connection_end` with any `error` flag is a
no-op: the whole state — every counter and buffer, including the
connection-error counter even when `error = true` — is returned unchanged,
and the total function never fails. -/
theorem record_connection_end_unknown_id_noop (connection_id : String)
    (error : Bool) (now : ℚ) (s : CollectorState)
    (h : s.active_connections.lookup connection_id = none) :
    record_connection_end connection_id error now s = s := by
  unfold record_connection_end
  rw [h]
  by_cases he : s.enabled = true <;> simp [he]

/-- Witness for C9 at the freshly initialised collector and an unknown id,
with the error flag set. -/
theorem record_connection_end_unknown_id_noop_witness :
    initialCollector.active_connections.lookup "conn-1" = none ∧
    record_connection_end "conn-1" true 5 initialCollector = initialCollector :=
  ⟨by decide,
   record_connection_end_unknown_id_noop "conn-1" true 5 initialCollector (by decide)⟩

/-! ## C2 -/

/-- C2: the request-rate computation does not count completions inside the
trailing 60-second window.  The buffer it filters holds request durations,
not completion timestamps: for a request of duration 1/2 completing at
`now = 1000000`, the filter `now - t < 60` rejects the entry and the
produced `request_rate` is `0`, while one completion in the window would
give `1/60`.  (The source's own comment calls this value requests per
second over the last minute.) -/
theorem request_rate_filters_durations :
    (get_request_metrics 1000000
      (record_request_end (1000000 - 1/2) true 0 false 1000000 initialCollector)).request_rate
        = 0 ∧
    (1 : ℚ) / 60 ≠ 0 := by
  constructor
  · norm_num [record_request_end, get_request_metrics, initialCollector, dequeAppend,
      List.filter_cons]
  · norm_num

/-! ## C6 -/

/-- C6 counterexample: with an empty request buffer, snapshot production
returns the dataclass defaults, whose `success_rate` is `100.0` — not the
all-zero record the claim asserts (it asserts in particular that all rates
are zero). -/
theorem empty_buffer_success_rate_not_zero :
    (get_request_metrics 100 initialCollector).success_rate = 100 ∧
    (100 : ℚ) ≠ 0 := by
  constructor
  · decide
  · norm_num

/-- C6 (amended): for every buffer-bearing category with zero recorded
samples, snapshot production returns that category's record at its
documented dataclass defaults without failing — every field is zero except
the success-rate fields, which default to `100.0`. -/
theorem empty_buffers_yield_defaults (now : ℚ) (s : CollectorState)
    (hreq : s.request_times = [])
    (hdur : s.connection_durations = []) (hact : s.active_connections = [])
    (hcerr : s.connection_errors = 0) (htot : s.total_connections = 0)
    (het : s.sse_event_times = []) (hsl : s.sse_stream_latencies = [])
    (hs1 : s.sse_events_sent = 0) (hs2 : s.sse_events_received = 0)
    (hs3 : s.sse_errors = 0) (hs4 : s.keepalive_sent = 0)
    (hs5 : s.client_disconnects = 0)
    (htc : s.tool_calls = []) (hte : s.tool_errors = [])
    (htt : s.tool_timeouts = []) (htx : s.tool_execution_times = []) :
    get_request_metrics now s =
      { request_count := 0, request_rate := 0, response_time_avg := 0,
        response_time_p50 := 0, response_time_p95 := 0, response_time_p99 := 0,
        response_time_max := 0, response_time_min := 0, success_rate := 100,
        error_rate := 0, timeout_rate := 0, throughput := 0 } ∧
    get_connection_metrics s =
      { active_connections := 0, total_connections := 0,
        connection_duration_avg := 0, connection_duration_max := 0,
        connection_duration_min := 0, connection_errors := 0,
        connection_success_rate := 100, connection_queue_size := 0,
        rejected_connections := 0 } ∧
    get_sse_metrics s =
      { events_sent := 0, events_received := 0, event_queue_size := 0,
        event_processing_time_avg := 0, event_processing_time_max := 0,
        event_processing_time_min := 0, stream_latency_avg := 0,
        stream_latency_max := 0, stream_errors := 0, keepalive_sent := 0,
        client_disconnects := 0 } ∧
    get_tool_metrics s =
      { tool_calls_total := 0, tool_calls_success := 0, tool_calls_error := 0,
        tool_calls_timeout := 0, tool_execution_time_avg := 0,
        tool_execution_time_p50 := 0, tool_execution_time_p95 := 0,
        tool_execution_time_p99 := 0, tool_execution_time_max := 0,
        tool_execution_time_min := 0, tool_calls_by_name := [],
        tool_errors_by_name := [], tool_timeout_by_name := [] } := by
  refine ⟨?_, ?_, ?_, ?_⟩
  · simp [get_request_metrics, hreq]
  · simp [get_connection_metrics, hdur, hact, hcerr, htot]
  · simp [get_sse_metrics, het, hsl, hs1, hs2, hs3, hs4, hs5]
  · simp [get_tool_metrics, htc, hte, htt, htx, dict_total]

/-- Witness for C6 at the freshly initialised collector. -/
theorem empty_buffers_yield_defaults_witness :
    get_request_metrics 0 initialCollector =
      { request_count := 0, request_rate := 0, response_time_avg := 0,
        response_time_p50 := 0, response_time_p95 := 0, response_time_p99 := 0,
        response_time_max := 0, response_time_min := 0, success_rate := 100,
        error_rate := 0, timeout_rate := 0, throughput := 0 } ∧
    get_connection_metrics initialCollector =
      { active_connections := 0, total_connections := 0,
        connection_duration_avg := 0, connection_duration_max := 0,
        connection_duration_min := 0, connection_errors := 0,
        connection_success_rate := 100, connection_queue_size := 0,
        rejected_connections := 0 } ∧
    get_sse_metrics initialCollector =
      { events_sent := 0, events_received := 0, event_queue_size := 0,
        event_processing_time_avg := 0, event_processing_time_max := 0,
        event_processing_time_min := 0, stream_latency_avg := 0,
        stream_latency_max := 0, stream_errors := 0, keepalive_sent := 0,
        client_disconnects := 0 } ∧
    get_tool_metrics initialCollector =
      { tool_calls_total := 0, tool_calls_success := 0, tool_calls_error := 0,
        tool_calls_timeout := 0, tool_execution_time_avg := 0,
        tool_execution_time_p50 := 0, tool_execution_time_p95 := 0,
        tool_execution_time_p99 := 0, tool_execution_time_max := 0,
        tool_execution_time_min := 0, tool_calls_by_name := [],
        tool_errors_by_name := [], tool_timeout_by_name := [] } :=
  empty_buffers_yield_defaults 0 initialCollector rfl rfl rfl rfl rfl rfl rfl
    rfl rfl rfl rfl rfl rfl rfl rfl rfl

/-! ## C10 -/

/-- C10: in every `RequestMetrics` produced from a non-empty buffer,
`success_rate` is exactly `100 - error_rate` with
`error_rate = request_errors / request_count * 100`; and every
`ConnectionMetrics` satisfies
`connection_success_rate = 100 - connection_errors / total_connections * 100`
when `total_connections > 0`, and `100` otherwise. -/
theorem success_rate_complements_error_rate (now : ℚ) (s : CollectorState)
    (hne : s.request_times ≠ []) (hcount : 0 < s.request_count) :
    ((get_request_metrics now s).success_rate =
        100 - (get_request_metrics now s).error_rate ∧
      (get_request_metrics now s).error_rate =
        (s.request_errors : ℚ) / (s.request_count : ℚ) * 100) ∧
    (∀ s2 : CollectorState, 0 < s2.total_connections →
      (get_connection_metrics s2).connection_success_rate =
        100 - (s2.connection_errors : ℚ) / (s2.total_connections : ℚ) * 100) ∧
    (∀ s3 : CollectorState, s3.total_connections = 0 →
      (get_connection_metrics s3).connection_success_rate = 100) := by
  have hie := isEmpty_false_of_ne_nil hne
  refine ⟨⟨?_, ?_⟩, ?_, ?_⟩
  · simp [get_request_metrics, hie]
  · simp [get_request_metrics, hie, hcount]
  · intro s2 h2
    simp [get_connection_metrics, h2]
  · intro s3 h3
    simp [get_connection_metrics, h3]

/-- Witness for C10 at a collector with one successful request and no
connections. -/
theorem success_rate_complements_error_rate_witness :
    ((get_request_metrics 10 demoRequestState).success_rate =
        100 - (get_request_metrics 10 demoRequestState).error_rate ∧
      (get_request_metrics 10 demoRequestState).error_rate =
        (demoRequestState.request_errors : ℚ) /
          (demoRequestState.request_count : ℚ) * 100) ∧
    (get_connection_metrics initialCollector).connection_success_rate = 100 :=
  ⟨(success_rate_complements_error_rate 10 demoRequestState (by decide)
      (by decide)).1,
   (success_rate_complements_error_rate 10 demoRequestState (by decide)
      (by decide)).2.2 initialCollector (by decide)⟩

/-! ## C3 -/

/-- C3: for every non-empty sample buffer, the nearest-rank percentiles
produced at snapshot time satisfy P50 ≤ P95 ≤ P99 ≤ max of the buffer, both
for the request-latency percentiles of `get_request_metrics` and for the
tool-execution-time percentiles of `get_tool_metrics`. -/
theorem percentile_monotonicity (now : ℚ) (s : CollectorState) :
    (s.request_times ≠ [] →
      (get_request_metrics now s).response_time_p50 ≤
          (get_request_metrics now s).response_time_p95 ∧
        (get_request_metrics now s).response_time_p95 ≤
          (get_request_metrics now s).response_time_p99 ∧
        (get_request_metrics now s).response_time_p99 ≤
          (get_request_metrics now s).response_time_max) ∧
    ((s.tool_execution_times.map Prod.snd).flatten ≠ [] →
      (get_tool_metrics s).tool_execution_time_p50 ≤
          (get_tool_metrics s).tool_execution_time_p95 ∧
        (get_tool_metrics s).tool_execution_time_p95 ≤
          (get_tool_metrics s).tool_execution_time_p99 ∧
        (get_tool_metrics s).tool_execution_time_p99 ≤
          (get_tool_metrics s).tool_execution_time_max) := by
  constructor
  · intro hne
    have hie := isEmpty_false_of_ne_nil hne
    have hn : 0 < (s.request_times.insertionSort (· ≤ ·)).length := by
      rw [List.length_insertionSort]
      exact List.length_pos.mpr hne
    have h50 := rank_idx_lt hn (by norm_num : (50 : ℕ) ≤ 99)
    have h95 := rank_idx_lt hn (by norm_num : (95 : ℕ) ≤ 99)
    have h99 := rank_idx_lt hn (by norm_num : (99 : ℕ) ≤ 99)
    refine ⟨?_, ?_, ?_⟩
    · simp only [get_request_metrics, hie, Bool.false_eq_true, if_false, h50, h95, if_true]
      exact sorted_rank_chain s.request_times hne (by norm_num) (by norm_num)
    · simp only [get_request_metrics, hie, Bool.false_eq_true, if_false, h95, h99, if_true]
      exact sorted_rank_chain s.request_times hne (by norm_num) (by norm_num)
    · simp only [get_request_metrics, hie, Bool.false_eq_true, if_false, h99, if_true]
      exact sorted_rank_le_listMax s.request_times hne (by norm_num)
  · intro hne
    have hie := isEmpty_false_of_ne_nil hne
    have hn : 0 <
        (((s.tool_execution_times.map Prod.snd).flatten).insertionSort (· ≤ ·)).length := by
      rw [List.length_insertionSort]
      exact List.length_pos.mpr hne
    have h50 := rank_idx_lt hn (by norm_num : (50 : ℕ) ≤ 99)
    have h95 := rank_idx_lt hn (by norm_num : (95 : ℕ) ≤ 99)
    have h99 := rank_idx_lt hn (by norm_num : (99 : ℕ) ≤ 99)
    refine ⟨?_, ?_, ?_⟩
    · simp only [get_tool_metrics, hie, Bool.false_eq_true, if_false, h50, h95, if_true]
      exact sorted_rank_chain _ hne (by norm_num) (by norm_num)
    · simp only [get_tool_metrics, hie, Bool.false_eq_true, if_false, h95, h99, if_true]
      exact sorted_rank_chain _ hne (by norm_num) (by norm_num)
    · simp only [get_tool_metrics, hie, Bool.false_eq_true, if_false, h99, if_true]
      exact sorted_rank_le_listMax _ hne (by norm_num)

/-- Witness for C3 at a collector with two request latencies and two tool
execution times. -/
theorem percentile_monotonicity_witness :
    ((get_request_metrics 10 demoPercentileState).response_time_p50 ≤
        (get_request_metrics 10 demoPercentileState).response_time_p95 ∧
      (get_request_metrics 10 demoPercentileState).response_time_p95 ≤
        (get_request_metrics 10 demoPercentileState).response_time_p99 ∧
      (get_request_metrics 10 demoPercentileState).response_time_p99 ≤
        (get_request_metrics 10 demoPercentileState).response_time_max) ∧
    ((get_tool_metrics demoPercentileState).tool_execution_time_p50 ≤
        (get_tool_metrics demoPercentileState).tool_execution_time_p95 ∧
      (get_tool_metrics demoPercentileState).tool_execution_time_p95 ≤
        (get_tool_metrics demoPercentileState).tool_execution_time_p99 ∧
      (get_tool_metrics demoPercentileState).tool_execution_time_p99 ≤
        (get_tool_metrics demoPercentileState).tool_execution_time_max) :=
  ⟨(percentile_monotonicity 10 demoPercentileState).1 (by decide),
   (percentile_monotonicity 10 demoPercentileState).2 (by decide)⟩

/-! ## C1 -/

/-- Claim-independent fact used below: the retention scan never removes
anything, because its date comparison raises before any directory can be
deleted. -/
lemma cleanup_old_files_noop (cutoffDay : ℕ) (fs : List StorageBucket) :
    cleanup_old_files cutoffDay fs = fs := by
  cases fs with
  | nil => rfl
  | cons b rest => rfl

/-- C1: the retention sweep run after a persist deletes nothing.  At the
concrete failing input — a stale day-0 bucket holding the snapshot with
timestamp 10, a persist of a fresh snapshot at `now = 950000` (day 10) with
24-hour retention, so the stale bucket's date 0 lies strictly before the
cutoff day 9 — the stale bucket is still on disk afterwards and its
snapshot is still returned by a full-range query, contradicting the claimed
deletion: `_cleanup_old_files` compares the directory's parsed `datetime`
against a `date` and the resulting `TypeError` aborts the sweep. -/
theorem retention_sweep_never_deletes :
    store_file_snapshot {} 950000 950000 [{ date := 0, raw := [10], gz := [] }] =
      [{ date := 0, raw := [10], gz := [] },
       { date := 10, raw := [950000], gz := [] }] ∧
    0 < (950000 - (24 : ℕ) * 3600) / 86400 ∧
    10 ∈ get_file_snapshots {} 950000 (some 0) (some 950000) none
      (store_file_snapshot {} 950000 950000 [{ date := 0, raw := [10], gz := [] }]) := by
  refine ⟨?_, ?_, ?_⟩ <;> decide

/-! ## C7 -/

lemma collect_days_mem {lo hi : ℕ} {fs : List StorageBucket} {ds : List ℕ}
    {t : ℕ} (ht : t ∈ collect_days lo hi fs ds) :
    (lo ≤ t ∧ t ≤ hi) ∧ ∃ b ∈ fs, t ∈ b.raw ∨ t ∈ b.gz := by
  induction ds with
  | nil => cases ht
  | cons d ds ih =>
    rw [collect_days, List.mem_append] at ht
    rcases ht with hhd | htl
    · cases hfb : find_bucket fs d with
      | none => rw [hfb] at hhd; cases hhd
      | some b =>
        rw [hfb] at hhd
        have hbfs : b ∈ fs := List.mem_of_find?_eq_some hfb
        rcases List.mem_append.mp hhd with hraw | hgz
        · obtain ⟨hmem, hp⟩ := List.mem_filter.mp hraw
          exact ⟨of_decide_eq_true hp, b, hbfs, Or.inl hmem⟩
        · obtain ⟨hmem, hp⟩ := List.mem_filter.mp hgz
          exact ⟨of_decide_eq_true hp, b, hbfs, Or.inr hmem⟩
    · exact ih htl

/-- C7 counterexample: `if limit:` treats an explicit `limit = 0` as no
limit.  For a bucket holding a raw snapshot at 5 and a compressed one at 7,
a query over [0, 100] with `limit = 0` returns both snapshots instead of
the empty truncation to the 0 most recent that the claim requires. -/
theorem query_limit_zero_not_truncated :
    get_file_snapshots {} 200 (some 0) (some 100) (some 0)
        [{ date := 0, raw := [5], gz := [7] }] = [5, 7] ∧
    ([5, 7] : List ℕ) ≠ [] := by
  refine ⟨?_, ?_⟩ <;> decide

/-- C7 (amended): every query over `[lo, hi]` returns only snapshots loaded
from the raw or compressed entries of the stored buckets whose timestamps
lie in `[lo, hi]`, sorted by timestamp ascending; and when a *nonzero* limit
is given, the result is the suffix of the untruncated sorted result of
length at most `n` — the `n` most recent snapshots in ascending order
(`limit = 0` is treated as no limit by Python truthiness). -/
theorem query_range_sorted_limited (cfg : StorageConfig) (now lo hi n : ℕ)
    (fs : List StorageBucket) (hn : n ≠ 0) :
    (∀ t ∈ get_file_snapshots cfg now (some lo) (some hi) none fs,
      lo ≤ t ∧ t ≤ hi) ∧
    (∀ t ∈ get_file_snapshots cfg now (some lo) (some hi) none fs,
      ∃ b ∈ fs, t ∈ b.raw ∨ t ∈ b.gz) ∧
    (get_file_snapshots cfg now (some lo) (some hi) none fs).Sorted (· ≤ ·) ∧
    get_file_snapshots cfg now (some lo) (some hi) (some n) fs =
      (get_file_snapshots cfg now (some lo) (some hi) none fs).drop
        ((get_file_snapshots cfg now (some lo) (some hi) none fs).length - n) := by
  refine ⟨?_, ?_, ?_, ?_⟩
  · intro t ht
    rw [get_file_snapshots] at ht
    exact (collect_days_mem ((List.mem_insertionSort _).mp ht)).1
  · intro t ht
    rw [get_file_snapshots] at ht
    exact (collect_days_mem ((List.mem_insertionSort _).mp ht)).2
  · rw [get_file_snapshots]
    exact List.sorted_insertionSort _ _
  · rw [get_file_snapshots, get_file_snapshots]
    simp [hn]

/-- Witness for C7: a nonzero limit of 1 on a two-snapshot bucket keeps
exactly the most recent snapshot. -/
theorem query_range_sorted_limited_witness :
    get_file_snapshots {} 200 (some 0) (some 100) (some 1)
        [{ date := 0, raw := [5], gz := [7] }] =
      (get_file_snapshots {} 200 (some 0) (some 100) none
          [{ date := 0, raw := [5], gz := [7] }]).drop
        ((get_file_snapshots {} 200 (some 0) (some 100) none
            [{ date := 0, raw := [5], gz := [7] }]).length - 1) ∧
    get_file_snapshots {} 200 (some 0) (some 100) (some 1)
        [{ date := 0, raw := [5], gz := [7] }] = [7] :=
  ⟨(query_range_sorted_limited {} 200 0 100 1
      [{ date := 0, raw := [5], gz := [7] }] (by decide)).2.2.2,
   by decide⟩

/-! ## C8 -/

/-- C8: when compression is triggered on a bucket whose raw-file count has
reached the threshold, exactly the raw files other than the 10 most recent
(in time-ordered file-name order) move to compressed form: the kept raw
files are the `min 10 count` largest, every compressed file is no newer
than every kept raw file, no file is lost, and a bucket below the threshold
is left entirely untouched. -/
theorem compression_spares_recent_ten (threshold : ℕ) (b : StorageBucket) :
    (threshold ≤ b.raw.length →
      (check_compression threshold b).raw =
        (b.raw.insertionSort (· ≤ ·)).drop
          ((b.raw.insertionSort (· ≤ ·)).length - 10) ∧
      (check_compression threshold b).gz =
        b.gz ++ (b.raw.insertionSort (· ≤ ·)).take
          ((b.raw.insertionSort (· ≤ ·)).length - 10) ∧
      (check_compression threshold b).raw.length = min 10 b.raw.length ∧
      (∀ x ∈ (b.raw.insertionSort (· ≤ ·)).take
          ((b.raw.insertionSort (· ≤ ·)).length - 10),
        ∀ y ∈ (check_compression threshold b).raw, x ≤ y) ∧
      ((check_compression threshold b).raw ++
        (b.raw.insertionSort (· ≤ ·)).take
          ((b.raw.insertionSort (· ≤ ·)).length - 10)).Perm b.raw) ∧
    (b.raw.length < threshold → check_compression threshold b = b) := by
  constructor
  · intro h
    have hif : check_compression threshold b =
        { b with
          raw := (b.raw.insertionSort (· ≤ ·)).drop
            ((b.raw.insertionSort (· ≤ ·)).length - 10)
          gz := b.gz ++ (b.raw.insertionSort (· ≤ ·)).take
            ((b.raw.insertionSort (· ≤ ·)).length - 10) } := by
      rw [check_compression, if_pos h]
    have hlen : (b.raw.insertionSort (· ≤ ·)).length = b.raw.length :=
      List.length_insertionSort _ _
    refine ⟨by rw [hif], by rw [hif], ?_, ?_, ?_⟩
    · rw [hif]
      simp only [List.length_drop, hlen]
      omega
    · intro x hx y hy
      rw [hif] at hy
      have hs := List.sorted_insertionSort (· ≤ ·) b.raw
      rw [← List.take_append_drop
        ((b.raw.insertionSort (· ≤ ·)).length - 10) (b.raw.insertionSort (· ≤ ·))] at hs
      exact (List.pairwise_append.mp hs).2.2 x hx y hy
    · rw [hif]
      refine (List.perm_append_comm).trans ?_
      rw [List.take_append_drop]
      exact List.perm_insertionSort _ _
  · intro h
    rw [check_compression, if_neg (by omega)]

/-- Witness for C8 on a 12-file bucket with threshold 12: two files are
compressed, ten survive raw. -/
theorem compression_spares_recent_ten_witness :
    (check_compression 12 demoBucket).raw.length = min 10 demoBucket.raw.length ∧
    ((check_compression 12 demoBucket).raw ++
      (demoBucket.raw.insertionSort (· ≤ ·)).take
        ((demoBucket.raw.insertionSort (· ≤ ·)).length - 10)).Perm demoBucket.raw ∧
    (check_compression 12 demoBucket).raw = [3, 4, 5, 6, 7, 8, 9, 10, 11, 12] ∧
    (check_compression 12 demoBucket).gz = [1, 2] :=
  ⟨((compression_spares_recent_ten 12 demoBucket).1 (by decide)).2.2.1,
   ((compression_spares_recent_ten 12 demoBucket).1 (by decide)).2.2.2.2,
   by decide, by decide⟩

/-! ## C4 -/

lemma update_similar_alert_map_id (m : String) (sev : AlertSeverity) (v : ℚ)
    (t : ℕ) (msg : String) (l : List PerformanceAlert) :
    (update_similar_alert m sev v t msg l).map (fun a => a.alert_id) =
      l.map (fun a => a.alert_id) := by
  induction l with
  | nil => rfl
  | cons a rest ih =>
    rw [update_similar_alert]
    by_cases hc : is_similar_alert m sev a = true
    · rw [if_pos hc]
      rfl
    · rw [if_neg hc, List.map_cons, List.map_cons, ih]

lemma update_similar_alert_mem {m : String} {sev : AlertSeverity} {v : ℚ}
    {t : ℕ} {msg : String} {l : List PerformanceAlert} {x : PerformanceAlert}
    (hx : x ∈ update_similar_alert m sev v t msg l) :
    ∃ a ∈ l, a.alert_id = x.alert_id ∧ a.metric_name = x.metric_name ∧
      a.severity = x.severity ∧ a.resolved = x.resolved := by
  induction l with
  | nil => cases hx
  | cons a rest ih =>
    rw [update_similar_alert] at hx
    by_cases hc : is_similar_alert m sev a = true
    · rw [if_pos hc] at hx
      rcases List.mem_cons.mp hx with rfl | hmem
      · exact ⟨a, List.mem_cons_self a rest, rfl, rfl, rfl, rfl⟩
      · exact ⟨x, List.mem_cons_of_mem a hmem, rfl, rfl, rfl, rfl⟩
    · rw [if_neg hc] at hx
      rcases List.mem_cons.mp hx with rfl | hmem
      · exact ⟨x, List.mem_cons_self x rest, rfl, rfl, rfl, rfl⟩
      · obtain ⟨b, hb, h1, h2, h3, h4⟩ := ih hmem
        exact ⟨b, List.mem_cons_of_mem a hb, h1, h2, h3, h4⟩

lemma create_alert_inv (sev : AlertSeverity) (m : String) (v thr : ℚ)
    (msg : String) (t : ℕ) (s : AlertState) (h : AlertInv s) :
    AlertInv (create_alert sev m v thr msg t s) := by
  obtain ⟨h1, h2, h3⟩ := h
  unfold create_alert
  cases hfind : s.active.find? (is_similar_alert m sev) with
  | some a0 =>
    refine ⟨?_, ?_, ?_⟩
    · intro x hx
      obtain ⟨a, ha, hid, _, _, _⟩ := update_similar_alert_mem hx
      rw [← hid]
      exact h1 a ha
    · show s.notified = _
      rw [update_similar_alert_map_id]
      exact h2
    · intro x hx y hy hm hsev hxr hyr
      obtain ⟨a, ha, hida, hma, hsa, hra⟩ := update_similar_alert_mem hx
      obtain ⟨b, hb, hidb, hmb, hsb, hrb⟩ := update_similar_alert_mem hy
      rw [← hida, ← hidb]
      exact h3 a ha b hb (by rw [hma, hmb, hm]) (by rw [hsa, hsb, hsev])
        (by rw [hra, hxr]) (by rw [hrb, hyr])
  | none =>
    have hnone := List.find?_eq_none.mp hfind
    refine ⟨?_, ?_, ?_⟩
    · intro x hx
      rcases List.mem_append.mp hx with hold | hnew
      · exact Nat.lt_succ_of_lt (h1 x hold)
      · rw [List.mem_singleton.mp hnew]
        exact Nat.lt_succ_self _
    · show s.notified ++ [s.next_id] = _
      rw [List.map_append, ← h2]
      rfl
    · intro x hx y hy hm hsev hxr hyr
      rcases List.mem_append.mp hx with hxo | hxn <;>
        rcases List.mem_append.mp hy with hyo | hyn
      · exact h3 x hxo y hyo hm hsev hxr hyr
      · exfalso
        rw [List.mem_singleton.mp hyn] at hm hsev
        exact hnone x hxo (by simp [is_similar_alert, hm, hsev, hxr])
      · exfalso
        rw [List.mem_singleton.mp hxn] at hm hsev
        exact hnone y hyo (by simp [is_similar_alert, ← hm, ← hsev, hyr])
      · rw [List.mem_singleton.mp hxn, List.mem_singleton.mp hyn]

lemma alertInv_map (s : AlertState) (f : PerformanceAlert → PerformanceAlert)
    (hid : ∀ a, (f a).alert_id = a.alert_id)
    (hm : ∀ a, (f a).metric_name = a.metric_name)
    (hsev : ∀ a, (f a).severity = a.severity)
    (hres : ∀ a, (f a).resolved = false → a.resolved = false)
    (h : AlertInv s) : AlertInv { s with active := s.active.map f } := by
  obtain ⟨h1, h2, h3⟩ := h
  refine ⟨?_, ?_, ?_⟩
  · intro x hx
    obtain ⟨a, ha, rfl⟩ := List.mem_map.mp hx
    rw [hid]
    exact h1 a ha
  · show s.notified = (s.active.map f).map _
    rw [List.map_map, show ((fun a => a.alert_id) ∘ f) = (fun a => a.alert_id)
      from funext hid]
    exact h2
  · intro x hx y hy hmn hsv hxr hyr
    obtain ⟨a, ha, rfl⟩ := List.mem_map.mp hx
    obtain ⟨b, hb, rfl⟩ := List.mem_map.mp hy
    rw [hid, hid]
    rw [hm, hm] at hmn
    rw [hsev, hsev] at hsv
    exact h3 a ha b hb hmn hsv (hres a hxr) (hres b hyr)

lemma alertInv_step (warn : String → ℚ) (s : AlertState) (e : AlertEvent)
    (h : AlertInv s) : AlertInv (alertStep warn s e) := by
  cases e with
  | breach sev m v thr msg t => exact create_alert_inv sev m v thr msg t s h
  | autoResolve snap t =>
    refine alertInv_map s _ ?_ ?_ ?_ ?_ h
    · intro a
      by_cases hc : (!a.resolved && is_alert_resolved warn a snap) = true <;> simp [hc]
    · intro a
      by_cases hc : (!a.resolved && is_alert_resolved warn a snap) = true <;> simp [hc]
    · intro a
      by_cases hc : (!a.resolved && is_alert_resolved warn a snap) = true <;> simp [hc]
    · intro a hr
      by_cases hc : (!a.resolved && is_alert_resolved warn a snap) = true
      · simp [hc] at hr
      · simpa [hc] using hr
  | manualResolve alert_id t =>
    refine alertInv_map s _ ?_ ?_ ?_ ?_ h
    · intro a
      by_cases hc : a.alert_id = alert_id <;> simp [hc]
    · intro a
      by_cases hc : a.alert_id = alert_id <;> simp [hc]
    · intro a
      by_cases hc : a.alert_id = alert_id <;> simp [hc]
    · intro a hr
      by_cases hc : a.alert_id = alert_id
      · simp [hc] at hr
      · simpa [hc] using hr

lemma alertInv_initial : AlertInv initialAlertState := by
  refine ⟨?_, rfl, ?_⟩
  · intro a ha
    exact (List.not_mem_nil a ha).elim
  · intro a ha
    exact (List.not_mem_nil a ha).elim

lemma alertInv_foldl (warn : String → ℚ) (evs : List AlertEvent) :
    ∀ s : AlertState, AlertInv s → AlertInv (evs.foldl (alertStep warn) s) := by
  induction evs with
  | nil => exact fun s hs => hs
  | cons e rest ih => exact fun s hs => ih _ (alertInv_step warn s e hs)

/-- C4: over every sequence of alert-engine events starting from a fresh
manager, (1) at most one unresolved alert exists per
`(metric_name, severity)` key — any two unresolved active records with the
same key are the same record; (2) the handler fan-out log contains exactly
one entry per created record, in creation order — handlers fire on
creation, never on update; and (3) a breach finding an existing unresolved
record for its key performs the in-place update: no handler fan-out and no
new record. -/
theorem alert_dedup_and_single_fanout (warn : String → ℚ) (evs : List AlertEvent) :
    (∀ a ∈ (runAlerts warn evs).active, ∀ b ∈ (runAlerts warn evs).active,
      a.metric_name = b.metric_name → a.severity = b.severity →
      a.resolved = false → b.resolved = false → a.alert_id = b.alert_id) ∧
    (runAlerts warn evs).notified =
      (runAlerts warn evs).active.map (fun a => a.alert_id) ∧
    (∀ (sev : AlertSeverity) (m : String) (v thr : ℚ) (msg : String) (t : ℕ)
        (st : AlertState),
      (∃ a ∈ st.active, is_similar_alert m sev a = true) →
      (create_alert sev m v thr msg t st).notified = st.notified ∧
      (create_alert sev m v thr msg t st).active.length = st.active.length) := by
  obtain ⟨h1, h2, h3⟩ := alertInv_foldl warn evs initialAlertState alertInv_initial
  refine ⟨h3, h2, ?_⟩
  rintro sev m v thr msg t st ⟨a, ha, hsim⟩
  cases hfind : st.active.find? (is_similar_alert m sev) with
  | none => exact absurd hsim (List.find?_eq_none.mp hfind a ha)
  | some a0 =>
    constructor
    · simp only [create_alert, hfind]
    · simp only [create_alert, hfind]
      have := congrArg List.length (update_similar_alert_map_id m sev v t msg st.active)
      simpa using this

/-- Witness for C4: two consecutive warning breaches of the same metric
produce a single fan-out. -/
theorem alert_dedup_and_single_fanout_witness :
    (runAlerts default_warn_thresholds demoTrace).notified =
      (runAlerts default_warn_thresholds demoTrace).active.map (fun a => a.alert_id) ∧
    (runAlerts default_warn_thresholds demoTrace).notified = [0] :=
  ⟨(alert_dedup_and_single_fanout default_warn_thresholds demoTrace).2.1,
   by decide⟩

/-! ## C5 -/

/-- C5: for every unresolved alert whose monitored metric has a current
value `v` in the snapshot, the auto-resolve pass of an evaluation tick
resolves it if and only if the two-tier hysteresis fires: a critical alert
exactly when `v` is strictly below the configured warning threshold, a
warning alert exactly when `v` is strictly below `0.8` times the warning
threshold, and an alert of any other severity never. -/
theorem auto_resolve_hysteresis (warn : String → ℚ) (snap : MetricsSnapshot)
    (t : ℕ) (st : AlertState) (a : PerformanceAlert) (v : ℚ)
    (ha : a ∈ st.active) (hres : a.resolved = false)
    (hv : get_metric_value a.metric_name snap = some v) :
    ∃ p ∈ (auto_resolve_alerts warn snap t st).active,
      p.alert_id = a.alert_id ∧
      (p.resolved = true ↔
        (a.severity = .critical ∧ v < warn a.metric_name) ∨
        (a.severity = .warning ∧ v < warn a.metric_name * (4 / 5))) := by
  have hcond : (!a.resolved && is_alert_resolved warn a snap) =
      is_alert_resolved warn a snap := by
    rw [hres]
    simp
  refine ⟨_, List.mem_map_of_mem
    (fun x => if !x.resolved && is_alert_resolved warn x snap then
        { x with resolved := true, resolved_at := some t } else x) ha, ?_, ?_⟩
  · by_cases hc : (!a.resolved && is_alert_resolved warn a snap) = true <;> simp [hc]
  · cases hsev : a.severity with
    | critical =>
      have hr : is_alert_resolved warn a snap = decide (v < warn a.metric_name) := by
        simp only [is_alert_resolved, hv, hsev]
      by_cases hlt : v < warn a.metric_name
      · simp [hcond, hr, hlt, hsev, hres]
      · simp [hcond, hr, hlt, hsev, hres]
    | warning =>
      have hr : is_alert_resolved warn a snap =
          decide (v < warn a.metric_name * (4 / 5)) := by
        simp only [is_alert_resolved, hv, hsev]
      by_cases hlt : v < warn a.metric_name * (4 / 5)
      · simp [hcond, hr, hlt, hsev, hres]
      · simp [hcond, hr, hlt, hsev, hres]
    | info =>
      have hr : is_alert_resolved warn a snap = false := by
        simp only [is_alert_resolved, hv, hsev]
      simp [hcond, hr, hsev, hres]
    | emergency =>
      have hr : is_alert_resolved warn a snap = false := by
        simp only [is_alert_resolved, hv, hsev]
      simp [hcond, hr, hsev, hres]

/-- Witness for C5: a critical CPU alert at warning threshold 70 resolves on
a tick whose snapshot reports CPU at 50. -/
theorem auto_resolve_hysteresis_witness :
    (∃ p ∈ (auto_resolve_alerts default_warn_thresholds demoSnapshot 5
        demoAlertState).active,
      p.alert_id = demoAlert.alert_id ∧
      (p.resolved = true ↔
        (demoAlert.severity = .critical ∧
          (50 : ℚ) < default_warn_thresholds demoAlert.metric_name) ∨
        (demoAlert.severity = .warning ∧
          (50 : ℚ) < default_warn_thresholds demoAlert.metric_name * (4 / 5)))) ∧
    (auto_resolve_alerts default_warn_thresholds demoSnapshot 5
        demoAlertState).active =
      [{ demoAlert with resolved := true, resolved_at := some 5 }] :=
  ⟨auto_resolve_hysteresis default_warn_thresholds demoSnapshot 5 demoAlertState
      demoAlert 50 (by decide) (by decide) (by decide),
   by decide⟩
